import Mathlib

/-!
Shallow embedding of the Beer Game supply-chain engine
(src/backend/core/game_engine.py, src/backend/core/utils.py,
src/backend/core/constants.py, src/backend/models/supply_chain.py,
src/backend/models/orders.py) and proofs about the claims made of it.

Python ints are modelled as Lean Int.  Python floats occur only as cost
accumulators multiplied by the rates 0.5 and 2.0; every float operation the
engine performs on them is exact (multiples of 1/2 far below 2^53), so costs
are modelled as exact rationals (ℚ).  Impure identifier generation (uuid4)
and timestamps are modelled by passing the generated identifier in as an
explicit argument; timestamp-only fields (created_at, started_at) carry no
game logic and are omitted.  Python dicts keyed by strings are modelled as
association lists updated by `setKey` (update in place, append when new),
which matches dict insertion-order semantics for the unique keys the engine
creates.
-/

namespace SCO

/-- models/orders.py: OrderStatus enumeration. -/
inductive OrderStatus where
  | pending
  | confirmed
  | shipped
  | delivered
  | cancelled
deriving DecidableEq, Repr

/-- models/orders.py: Order dataclass (created_at timestamp omitted). -/
structure Order where
  order_id : String
  from_role : String
  to_role : String
  supply_chain_id : String
  game_id : String
  quantity : Int
  status : OrderStatus
  created_week : Int
  delivery_week : Int
  actual_delivery_week : Option Int
deriving DecidableEq, Repr

/-- models/supply_chain.py: SupplyChainNode dataclass. -/
structure SupplyChainNode where
  role : String
  player_id : String
  player_name : String
  inventory : Int
  backorder : Int
  current_order : Int
  incoming_order : Int
  total_cost : ℚ
  orders_history : List Int
  inventory_history : List Int
deriving DecidableEq, Repr

/-- models/supply_chain.py: SupplyChain dataclass (created_at omitted). -/
structure SupplyChain where
  chain_id : String
  game_id : String
  shop : Option SupplyChainNode
  retailer : Option SupplyChainNode
  wholesaler : Option SupplyChainNode
  factory : Option SupplyChainNode
  current_week : Int
  total_cost : ℚ
deriving DecidableEq, Repr

/-- SupplyChain.get_node: dictionary lookup by role name. -/
def SupplyChain.get_node (sc : SupplyChain) (role : String) : Option SupplyChainNode :=
  if role == "Shop" then sc.shop
  else if role == "Retailer" then sc.retailer
  else if role == "Wholesaler" then sc.wholesaler
  else if role == "Factory" then sc.factory
  else none

/-- SupplyChain.set_node: assigns the slot named by role; unknown roles are a no-op. -/
def SupplyChain.set_node (sc : SupplyChain) (role : String) (node : SupplyChainNode) :
    SupplyChain :=
  if role == "Shop" then { sc with shop := some node }
  else if role == "Retailer" then { sc with retailer := some node }
  else if role == "Wholesaler" then { sc with wholesaler := some node }
  else if role == "Factory" then { sc with factory := some node }
  else sc

/-- SupplyChain.get_nodes: the present nodes in the order shop, retailer, wholesaler, factory. -/
def SupplyChain.get_nodes (sc : SupplyChain) : List SupplyChainNode :=
  ([sc.shop, sc.retailer, sc.wholesaler, sc.factory].filterMap id)

/-- SupplyChain.calculate_total_cost: sum of the present nodes' total_cost. -/
def SupplyChain.calculate_total_cost (sc : SupplyChain) : ℚ :=
  (sc.get_nodes.map (fun n => n.total_cost)).sum

/-- models/supply_chain.py to_dict slices a history with l[-52:] ("Keep last year").
Python l[-52:] keeps the last min(len l, 52) elements. -/
def sliceLast52 (l : List Int) : List Int :=
  l.drop (l.length - 52)

/-- The orders_history field of SupplyChainNode.to_dict. -/
def SupplyChainNode.ordersHistoryDict (n : SupplyChainNode) : List Int :=
  sliceLast52 n.orders_history

/-- The inventory_history field of SupplyChainNode.to_dict. -/
def SupplyChainNode.inventoryHistoryDict (n : SupplyChainNode) : List Int :=
  sliceLast52 n.inventory_history

/-- core/constants.py: BEER_GAME_ROLES. -/
def BEER_GAME_ROLES : List String := ["Shop", "Retailer", "Wholesaler", "Factory"]

/-- core/constants.py: BEER_GAME_CONFIG["initial_inventory"]. -/
def initial_inventory : Int := 100

/-- core/constants.py: BEER_GAME_CONFIG["holding_cost_per_unit"] = 0.5. -/
def holding_cost_per_unit : ℚ := 1 / 2

/-- core/constants.py: BEER_GAME_CONFIG["stockout_cost_per_unit"] = 2.0. -/
def stockout_cost_per_unit : ℚ := 2

/-- game_engine.py bottom of file: ORDER_DELAY_WEEKS = 4 (the fixed lead time). -/
def ORDER_DELAY_WEEKS : Int := 4

/-- core/utils.py calculate_inventory_cost: max(0, quantity) * cost_per_unit. -/
def calculate_inventory_cost (quantity : Int) (cost_per_unit : ℚ) : ℚ :=
  ((max 0 quantity : Int) : ℚ) * cost_per_unit

/-- core/utils.py calculate_backorder_cost: max(0, -quantity) * cost_per_unit.
Its docstring says quantity is "Backorder quantity (negative inventory)": the
function expects a negative number and negates it. -/
def calculate_backorder_cost (quantity : Int) (cost_per_unit : ℚ) : ℚ :=
  ((max 0 (-quantity) : Int) : ℚ) * cost_per_unit

/-- The in-place mutation _get_incoming_orders performs on each matched order:
status := DELIVERED, actual_delivery_week := current_week. -/
def deliverOrder (o : Order) (current_week : Int) : Order :=
  { o with status := OrderStatus.delivered, actual_delivery_week := some current_week }

/-- The ledger after _get_incoming_orders ran: every order with matching to_role
and delivery_week == current_week has been marked delivered. -/
def mark_delivered (orders : List Order) (role : String) (current_week : Int) :
    List Order :=
  orders.map (fun o =>
    if o.to_role == role && o.delivery_week == current_week
    then deliverOrder o current_week else o)

/-- The list _get_incoming_orders returns: the matched (and mutated) orders. -/
def incoming_orders (orders : List Order) (role : String) (current_week : Int) :
    List Order :=
  (orders.filter (fun o => o.to_role == role && o.delivery_week == current_week)).map
    (fun o => deliverOrder o current_week)

/-- game_engine.py BeerGameEngine._get_incoming_orders, as a pure function of the
chain's order list: returns the updated ledger paired with the matched arrivals. -/
def get_incoming_orders (orders : List Order) (role : String) (current_week : Int) :
    List Order × List Order :=
  (mark_delivered orders role current_week, incoming_orders orders role current_week)

/-- game_engine.py BeerGameEngine._process_node_week as a pure function:
arrival, fulfillment, backorder tracking, cost accrual, history append.
Returns the updated node and the updated chain ledger. -/
def process_node_week (node : SupplyChainNode) (orders : List Order)
    (current_week : Int) : SupplyChainNode × List Order :=
  let incoming := incoming_orders orders node.role current_week
  let inv1 := node.inventory + (incoming.map (fun o => o.quantity)).sum
  let demand := node.incoming_order
  let fulfilled := min inv1 demand
  let inv2 := inv1 - fulfilled
  let backorder1 :=
    if fulfilled < demand then node.backorder + (demand - fulfilled) else 0
  let holding_cost := calculate_inventory_cost inv2 holding_cost_per_unit
  let stockout_cost := calculate_backorder_cost backorder1 stockout_cost_per_unit
  ({ node with
      inventory := inv2
      backorder := backorder1
      total_cost := node.total_cost + (holding_cost + stockout_cost)
      orders_history := node.orders_history ++ [node.current_order]
      inventory_history := node.inventory_history ++ [inv2] },
   mark_delivered orders node.role current_week)

/-- The game-state dict create_game stores in self.games (started_at omitted). -/
structure GameRec where
  game_id : String
  num_chains : Int
  weeks : Int
  demand_pattern : String
  current_week : Int
  status : String
  supply_chains : List String
deriving DecidableEq, Repr

/-- BeerGameEngine's mutable state: games, supply_chains, orders (all string-keyed
dicts).  order_queue is created but never read or written after creation and is
omitted. -/
structure EngineState where
  games : List (String × GameRec)
  supply_chains : List (String × SupplyChain)
  orders : List (String × List Order)
deriving DecidableEq, Repr

/-- The empty engine (BeerGameEngine.__init__). -/
def initEngine : EngineState :=
  { games := [], supply_chains := [], orders := [] }

/-- Python dict assignment d[k] = v: update in place if the key exists,
append otherwise. -/
def setKey {α : Type} (m : List (String × α)) (k : String) (v : α) :
    List (String × α) :=
  match m with
  | [] => [(k, v)]
  | (a, b) :: t => if a == k then (k, v) :: t else (a, b) :: setKey t k v

/-- BeerGameEngine.create_game.  The uuid-generated game id is passed in.
Chains are created for i in range(num_chains) with ids f"{game_id}_chain_{i}";
each gets an empty order ledger.  No validation of num_chains is performed. -/
def create_game (s : EngineState) (game_id : String) (num_chains : Int)
    (weeks : Int) (demand_pattern : String) : String × EngineState :=
  let chain_ids := (List.range num_chains.toNat).map
    (fun i => game_id ++ "_chain_" ++ toString i)
  let game : GameRec :=
    { game_id := game_id, num_chains := num_chains, weeks := weeks,
      demand_pattern := demand_pattern, current_week := 0,
      status := "waiting", supply_chains := chain_ids }
  let s1 : EngineState := { s with games := setKey s.games game_id game }
  let s2 := chain_ids.foldl
    (fun st cid =>
      let newChain : SupplyChain :=
        { chain_id := cid, game_id := game_id, shop := none, retailer := none,
          wholesaler := none, factory := none, current_week := 0, total_cost := 0 }
      { st with supply_chains := setKey st.supply_chains cid newChain,
                orders := setKey st.orders cid [] })
    s1
  (game_id, s2)

/-- BeerGameEngine.join_game.  The uuid-generated player id is passed in.
Checks, in order: game exists, role valid, chain f"{game_id}_{supply_chain_id}"
exists; then binds a fresh node (inventory = initial_inventory) to the role slot. -/
def join_game (s : EngineState) (game_id : String) (supply_chain_id : String)
    (role : String) (player_name : String) (player_id : String) :
    Option String × EngineState :=
  match s.games.lookup game_id with
  | none => (none, s)
  | some _ =>
    if role ∈ BEER_GAME_ROLES then
      let chain_id := game_id ++ "_" ++ supply_chain_id
      match s.supply_chains.lookup chain_id with
      | none => (none, s)
      | some sc =>
        let node : SupplyChainNode :=
          { role := role, player_id := player_id, player_name := player_name,
            inventory := initial_inventory, backorder := 0, current_order := 0,
            incoming_order := 0, total_cost := 0, orders_history := [],
            inventory_history := [] }
        let sc1 := sc.set_node role node
        (some player_id,
         { s with supply_chains := setKey s.supply_chains chain_id sc1 })
    else (none, s)

/-- BeerGameEngine.place_customer_order: sets the shop's incoming_order scalar.
The week argument is accepted but never consulted. -/
def place_customer_order (s : EngineState) (game_id : String) (chain_id : String)
    (week : Int) (quantity : Int) : Bool × EngineState :=
  let full_chain_id := game_id ++ "_" ++ chain_id
  match s.supply_chains.lookup full_chain_id with
  | none => (false, s)
  | some sc =>
    match sc.shop with
    | some shopNode =>
      let sc1 := { sc with shop := some { shopNode with incoming_order := quantity } }
      (true,
       { s with supply_chains := setKey s.supply_chains full_chain_id sc1 })
    | none => (false, s)

/-- BeerGameEngine.process_order.  The uuid-generated order id is passed in.
Creates an order with delivery_week = chain.current_week + ORDER_DELAY_WEEKS,
appends it to the chain's ledger, and records quantity as the sender's
current_order. -/
def process_order (s : EngineState) (game_id : String) (chain_id : String)
    (from_role : String) (to_role : String) (quantity : Int) (order_id : String) :
    Option String × EngineState :=
  let full_chain_id := game_id ++ "_" ++ chain_id
  match s.supply_chains.lookup full_chain_id with
  | none => (none, s)
  | some sc =>
    match sc.get_node from_role, sc.get_node to_role with
    | some from_node, some _ =>
      let current_week := sc.current_week
      let order : Order :=
        { order_id := order_id, from_role := from_role, to_role := to_role,
          supply_chain_id := full_chain_id, game_id := game_id,
          quantity := quantity, status := OrderStatus.pending,
          created_week := current_week,
          delivery_week := current_week + ORDER_DELAY_WEEKS,
          actual_delivery_week := none }
      let prevOrders := (s.orders.lookup full_chain_id).getD []
      let sc1 := sc.set_node from_role { from_node with current_order := quantity }
      (some order_id,
       { s with
          orders := setKey s.orders full_chain_id (prevOrders ++ [order]),
          supply_chains := setKey s.supply_chains full_chain_id sc1 })
    | _, _ => (none, s)

/-- One node slot of _process_supply_chain_week's loop body: when the slot is
occupied, run process_node_week against the threaded ledger. -/
def processSlot (slot : Option SupplyChainNode) (orders : List Order)
    (current_week : Int) : Option SupplyChainNode × List Order :=
  match slot with
  | none => (none, orders)
  | some n =>
    let r := process_node_week n orders current_week
    (some r.1, r.2)

/-- BeerGameEngine._process_supply_chain_week.  Reconstructs the chain id as
f"{game_id}_chain_{chain_index}" from its chain_index argument (Python f-string
on whatever value was passed), silently returns when the lookup fails, and
otherwise sets the chain's week and processes the present nodes in the order
shop, retailer, wholesaler, factory, threading the shared ledger through. -/
def process_supply_chain_week (s : EngineState) (game_id : String)
    (chain_index : String) (current_week : Int) : EngineState :=
  let chain_id := game_id ++ "_chain_" ++ chain_index
  match s.supply_chains.lookup chain_id with
  | none => s
  | some sc =>
    let orders0 := (s.orders.lookup chain_id).getD []
    let sc0 := { sc with current_week := current_week }
    let r1 := processSlot sc0.shop orders0 current_week
    let r2 := processSlot sc0.retailer r1.2 current_week
    let r3 := processSlot sc0.wholesaler r2.2 current_week
    let r4 := processSlot sc0.factory r3.2 current_week
    let sc4 :=
      { sc0 with shop := r1.1, retailer := r2.1, wholesaler := r3.1, factory := r4.1 }
    { s with supply_chains := setKey s.supply_chains chain_id sc4,
             orders := setKey s.orders chain_id r4.2 }

/-- BeerGameEngine.advance_week: looks up the game, increments its week counter,
then calls _process_supply_chain_week once per entry of game["supply_chains"] —
passing the stored FULL chain id as the chain_index argument. -/
def advance_week (s : EngineState) (game_id : String) : Bool × EngineState :=
  match s.games.lookup game_id with
  | none => (false, s)
  | some game =>
    let week1 := game.current_week + 1
    let s1 : EngineState :=
      { s with games := setKey s.games game_id { game with current_week := week1 } }
    let s2 := game.supply_chains.foldl
      (fun st cid => process_supply_chain_week st game_id cid week1) s1
    (true, s2)

/-- Iterated advance_week: the engine after n advanced weeks. -/
def advanceN (s : EngineState) (game_id : String) : Nat → EngineState
  | 0 => s
  | k + 1 => (advance_week (advanceN s game_id k) game_id).2

/-- A fresh Shop node as join_game builds it: inventory 100, everything else zero. -/
def c2node0 : SupplyChainNode :=
  { role := "Shop", player_id := "p1", player_name := "alice",
    inventory := 100, backorder := 0, current_order := 0, incoming_order := 0,
    total_cost := 0, orders_history := [], inventory_history := [] }

/-- The spec's §8 scenario: a Shop node with incoming_order set to 30 before each
weekly step, idle ledger (no arriving shipments); c2state k is the node after k
weekly node-processing steps. -/
def c2state : Nat → SupplyChainNode
  | 0 => c2node0
  | k + 1 =>
    (process_node_week { c2state k with incoming_order := 30 } [] ((k : Int) + 1)).1

/-- A node carrying a prior backorder of 20 with empty inventory and demand 30. -/
def c3node : SupplyChainNode :=
  { role := "Shop", player_id := "p3", player_name := "carol",
    inventory := 0, backorder := 20, current_order := 0, incoming_order := 30,
    total_cost := 0, orders_history := [], inventory_history := [] }

/-- A node with empty inventory, no prior backorder, and demand 20: the weekly
step leaves it with backorder 20. -/
def c4node : SupplyChainNode :=
  { role := "Shop", player_id := "p4", player_name := "dan",
    inventory := 0, backorder := 0, current_order := 0, incoming_order := 20,
    total_cost := 0, orders_history := [], inventory_history := [] }

/-- Concrete game for the advance_week scenario: one chain, Shop joined,
customer demand 30 pending. -/
def c1s0 : EngineState := (create_game initEngine "g" 1 52 "sine_wave").2

/-- c1s0 after alice joins chain_0 as Shop. -/
def c1s1 : EngineState := (join_game c1s0 "g" "chain_0" "Shop" "alice" "p1").2

/-- c1s1 after a customer order of 30 units is placed for the shop. -/
def c1s2 : EngineState := (place_customer_order c1s1 "g" "chain_0" 0 30).2

/-- Concrete game for the order-delivery scenario: one chain with Retailer and
Wholesaler joined. -/
def c6s0 : EngineState := (create_game initEngine "h" 1 52 "sine_wave").2

/-- c6s0 after carol joins chain_0 as Retailer. -/
def c6s1 : EngineState := (join_game c6s0 "h" "chain_0" "Retailer" "carol" "p2").2

/-- c6s1 after dave joins chain_0 as Wholesaler. -/
def c6s2 : EngineState := (join_game c6s1 "h" "chain_0" "Wholesaler" "dave" "p3").2

/-- The process_order call: 50 units from Retailer to Wholesaler at chain week 0. -/
def c6po : Option String × EngineState :=
  process_order c6s2 "h" "chain_0" "Retailer" "Wholesaler" 50 "o1"

/-- The engine holding the order o1 with delivery_week = 0 + 4 = 4. -/
def c6s3 : EngineState := c6po.2

/-- Looking up a key right after setKey stored a value under it yields that value. -/
theorem lookup_setKey_self {α : Type} (m : List (String × α)) (k : String) (v : α) :
    (setKey m k v).lookup k = some v := by
  induction m with
  | nil => simp [setKey]
  | cons p t ih =>
    obtain ⟨a, b⟩ := p
    by_cases h : a = k
    · subst h
      simp [setKey]
    · have h2 : (k == a) = false := beq_eq_false_iff_ne.mpr (fun hh => h hh.symm)
      simp [setKey, h, h2, List.lookup, ih]

/-- Each weekly node-processing step appends exactly one entry to orders_history,
so after k steps of the c2 scenario the stored history has k entries. -/
theorem c2state_orders_history_length (k : Nat) :
    (c2state k).orders_history.length = k := by
  induction k with
  | zero => rfl
  | succ n ih => simp [c2state, process_node_week, ih]

/-- C1: advance_week increments the game's week counter and returns true, but it
passes each stored full chain id into _process_supply_chain_week's chain_index
slot, which prefixes the game id and "_chain_" again; the doubled id misses the
supply_chains dict, so no chain and no node is ever processed.  Concretely: with
chain g_chain_0 present and its Shop slot occupied with pending demand 30, after
advance_week the chain (week counter, shop inventory 100, empty histories,
unconsumed incoming_order) and the ledger are bit-for-bit unchanged. -/
theorem C1_advance_week_processes_no_chain :
    (advance_week c1s2 "g").1 = true ∧
    ((advance_week c1s2 "g").2.games.lookup "g").map (fun gm => gm.current_week) =
      some 1 ∧
    ((c1s2.supply_chains.lookup "g_chain_0").bind (fun sc => sc.shop)).isSome = true ∧
    (advance_week c1s2 "g").2.supply_chains.lookup "g_chain_0" =
      c1s2.supply_chains.lookup "g_chain_0" ∧
    (advance_week c1s2 "g").2.orders.lookup "g_chain_0" =
      c1s2.orders.lookup "g_chain_0" := by
  decide

/-- C2 counterexample: in the spec's five-week Shop scenario the code charges no
cost in week 4 (not 40), accumulates the week-5 backorder to 50 (not 30), and
ends with cumulative cost 60 (not 160). -/
theorem C2_counterexample_trace_diverges :
    (c2state 4).total_cost - (c2state 3).total_cost = 0 ∧
    ¬ ((c2state 4).total_cost - (c2state 3).total_cost = 40) ∧
    (c2state 5).backorder = 50 ∧
    ¬ ((c2state 5).backorder = 30) ∧
    ¬ ((c2state 5).total_cost = 160) := by
  refine ⟨?_, ?_, ?_, ?_, ?_⟩ <;>
    simp [c2state, c2node0, process_node_week, incoming_orders, calculate_inventory_cost,
          calculate_backorder_cost, holding_cost_per_unit, stockout_cost_per_unit] <;>
    norm_num

/-- C2 amended: weeks 1-3 behave as claimed (inventory 70/40/10, cumulative cost
35/55/60); in week 4 fulfilled is 10 and backorder 20 but the cost increment is 0
(stockout cost is computed as max(0, -backorder) * 2 = 0); in week 5 the
backorder grows to 50 (the shortfall of 30 is added to the prior 20, not
replacing it) and the cost increment is again 0, so the cumulative cost after
five weeks is 60. -/
theorem C2_amended_five_week_trace :
    (c2state 1).inventory = 70 ∧ (c2state 1).total_cost = 35 ∧
    (c2state 2).inventory = 40 ∧ (c2state 2).total_cost = 55 ∧
    (c2state 3).inventory = 10 ∧ (c2state 3).total_cost = 60 ∧
    (c2state 4).inventory = 0 ∧ (c2state 4).backorder = 20 ∧
    (c2state 4).total_cost = 60 ∧
    (c2state 5).inventory = 0 ∧ (c2state 5).backorder = 50 ∧
    (c2state 5).total_cost = 60 := by
  refine ⟨?_, ?_, ?_, ?_, ?_, ?_, ?_, ?_, ?_, ?_, ?_, ?_⟩ <;>
    simp [c2state, c2node0, process_node_week, incoming_orders, calculate_inventory_cost,
          calculate_backorder_cost, holding_cost_per_unit, stockout_cost_per_unit] <;>
    norm_num

/-- C3 counterexample: a node with prior backorder 20, empty inventory and demand
30 leaves the weekly step with backorder 50, while max(0, demand - fulfilled)
is 30 — the prior backorder is added to, not replaced. -/
theorem C3_counterexample_backorder_not_replaced :
    (process_node_week c3node [] 1).1.backorder = 50 ∧
    max 0 (c3node.incoming_order - min c3node.inventory c3node.incoming_order) = 30 ∧
    ¬ ((process_node_week c3node [] 1).1.backorder =
        max 0 (c3node.incoming_order - min c3node.inventory c3node.incoming_order)) := by
  refine ⟨?_, ?_, ?_⟩ <;>
    simp [c3node, process_node_week, incoming_orders, calculate_inventory_cost,
          calculate_backorder_cost] <;>
    norm_num

/-- C3 amended: in every weekly node-processing step, when fulfilled < demand the
new backorder is the PRIOR backorder plus (demand - fulfilled); when demand is
fully met the backorder resets to 0. -/
theorem C3_amended_backorder_update (node : SupplyChainNode) (orders : List Order)
    (week : Int) :
    (process_node_week node orders week).1.backorder =
      (if min (node.inventory +
            ((incoming_orders orders node.role week).map (fun o => o.quantity)).sum)
          node.incoming_order < node.incoming_order
       then node.backorder +
         (node.incoming_order -
          min (node.inventory +
            ((incoming_orders orders node.role week).map (fun o => o.quantity)).sum)
          node.incoming_order)
       else 0) :=
  rfl

/-- C4: the cost step passes the node's non-negative backorder to
calculate_backorder_cost, which computes max(0, -quantity) * rate — so a node
with positive backorder accrues ZERO stockout cost, where the claim demands
max(0, backorder) * 2.0 = 40 for backorder 20.  Concretely: a node with empty
inventory and demand 20 ends the week with backorder 20 and an unchanged
total_cost. -/
theorem C4_positive_backorder_accrues_no_stockout_cost :
    (process_node_week c4node [] 1).1.backorder = 20 ∧
    (process_node_week c4node [] 1).1.total_cost = c4node.total_cost ∧
    calculate_backorder_cost 20 stockout_cost_per_unit = 0 ∧
    (((max 0 (20 : Int) : Int) : ℚ) * stockout_cost_per_unit = 40) := by
  refine ⟨?_, ?_, ?_, ?_⟩ <;>
    simp [c4node, process_node_week, incoming_orders, calculate_inventory_cost,
          calculate_backorder_cost, stockout_cost_per_unit, holding_cost_per_unit] <;>
    norm_num

/-- C5 counterexample: the node state's stored histories are never truncated —
after 53 weekly node-processing steps the orders history holds 53 entries,
violating the claimed bound of 52. -/
theorem C5_counterexample_history_exceeds_52 :
    (c2state 53).orders_history.length = 53 ∧
    ¬ ((c2state 53).orders_history.length ≤ 52) := by
  have h := c2state_orders_history_length 53
  exact ⟨h, by omega⟩

/-- C5 amended: each weekly node-processing step appends one entry to each stored
history with no truncation, so the stored histories grow without bound; only the
to_dict serialization view (l[-52:]) is bounded by 52 entries, keeping the most
recent ones. -/
theorem C5_amended_histories_grow_unbounded (node : SupplyChainNode)
    (orders : List Order) (week : Int) :
    (process_node_week node orders week).1.orders_history.length =
      node.orders_history.length + 1 ∧
    (process_node_week node orders week).1.inventory_history.length =
      node.inventory_history.length + 1 ∧
    node.ordersHistoryDict.length ≤ 52 ∧
    node.inventoryHistoryDict.length ≤ 52 := by
  refine ⟨?_, ?_, ?_, ?_⟩
  · simp [process_node_week]
  · simp [process_node_week]
  · simp [SupplyChainNode.ordersHistoryDict, sliceLast52]
    omega
  · simp [SupplyChainNode.inventoryHistoryDict, sliceLast52]
    omega

/-- C6: process_order at chain week 0 stamps delivery_week = 0 + 4 = 4 and the
order sits pending in the ledger; but because advance_week never reaches any
chain (the doubled chain-id bug), after four advanced weeks — when the game
counter reads 4, the order's delivery week — the order is still pending with no
actual_delivery_week: it is never delivered, where the claim demands delivery
exactly at week 4. -/
theorem C6_lead_time_stamped_but_never_delivered :
    c6po.1 = some "o1" ∧
    ((c6s3.orders.lookup "h_chain_0").getD []).map
      (fun o => (o.created_week, o.delivery_week, o.status, o.actual_delivery_week)) =
      [(0, 4, OrderStatus.pending, none)] ∧
    ((advanceN c6s3 "h" 4).games.lookup "h").map (fun gm => gm.current_week) =
      some 4 ∧
    ((advanceN c6s3 "h" 4).orders.lookup "h_chain_0").getD [] =
      (c6s3.orders.lookup "h_chain_0").getD [] := by
  decide

/-- C7 counterexample: create_game called with chain_count = 0 (< 1) does not
fail — it returns the game id and registers a game with an empty chain list. -/
theorem C7_counterexample_zero_chains_accepted :
    (create_game initEngine "g7" 0 52 "constant").1 = "g7" ∧
    ((create_game initEngine "g7" 0 52 "constant").2.games.lookup "g7").map
      (fun gm => gm.supply_chains) = some [] := by
  decide

/-- C7 amended: create_game performs no validation of chain_count: for any
chain_count < 1 it still returns the game id and stores a waiting game whose
chain list is empty (range of a non-positive count). -/
theorem C7_amended_no_validation (s : EngineState) (gid pat : String)
    (n weeks : Int) (h : n < 1) :
    (create_game s gid n weeks pat).1 = gid ∧
    (create_game s gid n weeks pat).2.games.lookup gid =
      some { game_id := gid, num_chains := n, weeks := weeks,
             demand_pattern := pat, current_week := 0, status := "waiting",
             supply_chains := [] } := by
  have hn : n.toNat = 0 := by omega
  refine ⟨rfl, ?_⟩
  simp [create_game, hn, lookup_setKey_self]

/-- Witness for C7_amended_no_validation at chain_count 0. -/
theorem C7_amended_no_validation_witness :
    ((0 : Int) < 1) ∧
    ((create_game initEngine "gw" 0 52 "sine_wave").1 = "gw" ∧
     (create_game initEngine "gw" 0 52 "sine_wave").2.games.lookup "gw" =
       some { game_id := "gw", num_chains := 0, weeks := 52,
              demand_pattern := "sine_wave", current_week := 0, status := "waiting",
              supply_chains := [] }) :=
  ⟨by norm_num, C7_amended_no_validation initEngine "gw" "sine_wave" 0 52 (by norm_num)⟩

/-- C8: given non-negative inventory, backorder and demand going in, and
non-negative quantities on every ledger order, the weekly node-processing step
leaves inventory ≥ 0 and backorder ≥ 0. -/
theorem C8_inventory_backorder_nonneg (node : SupplyChainNode) (orders : List Order)
    (week : Int) (hinv : 0 ≤ node.inventory) (hback : 0 ≤ node.backorder)
    (hdem : 0 ≤ node.incoming_order) (hq : ∀ o ∈ orders, 0 ≤ o.quantity) :
    0 ≤ (process_node_week node orders week).1.inventory ∧
    0 ≤ (process_node_week node orders week).1.backorder := by
  have hmin : min (node.inventory +
      ((incoming_orders orders node.role week).map (fun o => o.quantity)).sum)
      node.incoming_order ≤ node.inventory +
      ((incoming_orders orders node.role week).map (fun o => o.quantity)).sum :=
    min_le_left _ _
  constructor
  · dsimp only [process_node_week]
    omega
  · dsimp only [process_node_week]
    split_ifs with hlt
    · omega
    · omega

/-- Witness for C8_inventory_backorder_nonneg: a fresh Shop node with an empty
ledger. -/
theorem C8_inventory_backorder_nonneg_witness :
    (0 ≤ c2node0.inventory ∧ 0 ≤ c2node0.backorder ∧ 0 ≤ c2node0.incoming_order ∧
      (∀ o ∈ ([] : List Order), 0 ≤ o.quantity)) ∧
    (0 ≤ (process_node_week c2node0 [] 1).1.inventory ∧
     0 ≤ (process_node_week c2node0 [] 1).1.backorder) :=
  ⟨⟨by decide, by decide, by decide, by simp⟩,
   C8_inventory_backorder_nonneg c2node0 [] 1 (by decide) (by decide) (by decide)
     (by simp)⟩

/-- C9: join_game called with a role string outside the fixed four-role set
returns no player id and leaves the engine state — every role slot of every
chain — unchanged, whatever the game, chain selector and player name. -/
theorem C9_invalid_role_rejected (s : EngineState)
    (gid cid role pname pid : String) (h : role ∉ BEER_GAME_ROLES) :
    (join_game s gid cid role pname pid).1 = none ∧
    (join_game s gid cid role pname pid).2 = s := by
  cases hg : s.games.lookup gid <;> simp [join_game, hg, h]

/-- Witness for C9_invalid_role_rejected with the invalid role Manager. -/
theorem C9_invalid_role_rejected_witness :
    ("Manager" ∉ BEER_GAME_ROLES) ∧
    ((join_game initEngine "g" "chain_0" "Manager" "bob" "p9").1 = none ∧
     (join_game initEngine "g" "chain_0" "Manager" "bob" "p9").2 = initEngine) :=
  ⟨by decide,
   C9_invalid_role_rejected initEngine "g" "chain_0" "Manager" "bob" "p9" (by decide)⟩

/-- C10: place_customer_order never consults its week argument — two calls
differing only in the week value return the same boolean and produce the same
engine state. -/
theorem C10_place_customer_order_week_independent (s : EngineState)
    (gid cid : String) (w1 w2 q : Int) :
    place_customer_order s gid cid w1 q = place_customer_order s gid cid w2 q :=
  rfl

end SCO
